import Mathlib

/-!
Verification of the N2SQL schema-context retrieval and SQL-generation pipeline.

Shallow embedding of the Python sources:
- `src/app/domain/entities.py` (QueryRequest / QueryResponse validation),
- `src/app/application/use_cases.py` (ProcessQueryUseCase.execute),
- `src/app/interface/api.py` (process_query exception-to-status mapping),
- `src/app/infrastructure/enhanced_rag_system.py` (EnhancedRAGSystem),
- `src/app/infrastructure/vanna_client.py` (VannaClientRepository),
- `src/real_schema_extractor.py` (RealSchemaExtractor indexing).

External collaborators (Qdrant vector store, the Vanna generation service,
Python hashlib.md5 and the per-process builtin string hash) are modelled as
explicit oracle data / function parameters; the control flow around them is
translated from the source.
-/

namespace N2SQL

/-- Decidable equality for `Except`, used to evaluate concrete outcomes. -/
instance {α β : Type _} [DecidableEq α] [DecidableEq β] : DecidableEq (Except α β) :=
  fun x y =>
    match x, y with
    | .ok a, .ok b =>
      if h : a = b then isTrue (by rw [h]) else isFalse (by intro hh; injection hh; exact h ‹_›)
    | .error a, .error b =>
      if h : a = b then isTrue (by rw [h]) else isFalse (by intro hh; injection hh; exact h ‹_›)
    | .ok _, .error _ => isFalse (by intro hh; exact Except.noConfusion hh)
    | .error _, .ok _ => isFalse (by intro hh; exact Except.noConfusion hh)

/-! ### Python string primitives used by the sources -/

/-- Python substring prefix test on character lists (`haystack.startswith(needle)`). -/
def charsStartWith : List Char → List Char → Bool
  | [], _ => true
  | _ :: _, [] => false
  | a :: as, b :: bs => a == b && charsStartWith as bs

/-- Substring containment on character lists: some suffix of the haystack
starts with the needle.  This is Python's `needle in haystack`. -/
def charsContain (needle : List Char) : List Char → Bool
  | [] => charsStartWith needle []
  | b :: bs => charsStartWith needle (b :: bs) || charsContain needle bs

/-- Python's `needle in haystack` substring test on strings. -/
def strContains (needle haystack : String) : Bool :=
  charsContain needle.toList haystack.toList

/-- The ASCII whitespace characters stripped by Python's `str.strip()`
(space, tab, newline, carriage return, vertical tab, form feed). -/
def isPyWhitespace (c : Char) : Bool :=
  c = ' ' || c = '\t' || c = '\n' || c = '\r' || c.toNat = 11 || c.toNat = 12

/-- Python's `s.strip()`: remove leading and trailing whitespace. -/
def pyStrip (s : String) : String :=
  String.mk (((s.toList.dropWhile isPyWhitespace).reverse.dropWhile isPyWhitespace).reverse)

/-- Python's truthiness test `not s or not s.strip()` for a string: true iff
the string is empty or consists only of whitespace. -/
def isBlank (s : String) : Bool :=
  s.toList.all isPyWhitespace

/-- Python's `s.lower()` (per-character basic-latin lowercasing, which is all
that matters for the ASCII table/column names and questions in this app). -/
def pyLower (s : String) : String :=
  String.mk (s.toList.map Char.toLower)

/-! ### Domain entities (`src/app/domain/entities.py`) -/

/-- The two exception kinds raised by the modelled code paths:
Python `ValueError` (validation) and `RuntimeError` (processing failures). -/
inductive AppError
  | valueError (msg : String)
  | runtimeError (msg : String)
deriving DecidableEq, Repr

/-- `QueryRequest` after a successful `__post_init__` validation. -/
structure QueryRequest where
  question : String
  userId : Option String
deriving DecidableEq, Repr

/-- `QueryRequest(question=..., user_id=...)`: `__post_init__` raises
`ValueError("Question cannot be empty")` when
`not self.question or not self.question.strip()`. -/
def mkQueryRequest (question : String) (userId : Option String) :
    Except AppError QueryRequest :=
  if isBlank question then
    .error (.valueError "Question cannot be empty")
  else
    .ok ⟨question, userId⟩

/-- `QueryResponse` after a successful `__post_init__` validation.
`results` is kept as its row count (`row_count = len(results)` in the
caller), which is all the validation inspects. -/
structure QueryResponse where
  sqlQuery : String
  rowCount : Nat
  executionTimeMs : ℚ
  errorMessage : Option String
deriving DecidableEq, Repr

/-- `QueryResponse(...)`: `__post_init__` raises `ValueError` when the SQL is
empty/whitespace or the execution time is negative (the `row_count < 0`
check cannot fire for a `len`-derived count, modelled by `Nat`). -/
def mkQueryResponse (sqlQuery : String) (rowCount : Nat) (executionTimeMs : ℚ)
    (errorMessage : Option String) : Except AppError QueryResponse :=
  if isBlank sqlQuery then
    .error (.valueError "SQL query cannot be empty")
  else if executionTimeMs < 0 then
    .error (.valueError "Execution time cannot be negative")
  else
    .ok ⟨sqlQuery, rowCount, executionTimeMs, errorMessage⟩

/-! ### ProcessQueryUseCase (`src/app/application/use_cases.py`) -/

/-- Oracle for the two awaited collaborator calls inside `execute`'s `try`
block: `vanna_repo.generate_sql` and `db_repo.execute_query` (`.error` =
the call raised, carrying `str(e)`), plus the measured Vanna wall-clock
time.  `execResult` carries `(len(results), db_time_ms)`.
`query_repo.save_query`/`save_response` (in-memory dict inserts) never
raise and are not modelled. -/
structure UseCaseEnv where
  genResult : Except String String
  execResult : Except String (Nat × ℚ)
  vannaTimeMs : ℚ
deriving DecidableEq, Repr

/-- `ProcessQueryUseCase.execute`.  Note the `except` branch: it constructs
`QueryResponse(sql_query="", results=[], execution_time_ms=0, row_count=0,
error_message=str(e))`, whose `__post_init__` raises
`ValueError("SQL query cannot be empty")`; that exception propagates, so the
final `raise RuntimeError(f"Failed to process query: {e}")` is unreachable. -/
def executeUseCase (env : UseCaseEnv) (question : String) (userId : Option String) :
    Except AppError QueryResponse :=
  match mkQueryRequest question userId with
  | .error e => .error e
  | .ok _ =>
    let tryBody : Except String QueryResponse :=
      match env.genResult with
      | .error e => .error e
      | .ok sqlQuery =>
        match env.execResult with
        | .error e => .error e
        | .ok (rowCount, dbTimeMs) =>
          match mkQueryResponse sqlQuery rowCount (env.vannaTimeMs + dbTimeMs) none with
          | .error (.valueError m) => .error m
          | .error (.runtimeError m) => .error m
          | .ok r => .ok r
    match tryBody with
    | .ok r => .ok r
    | .error e =>
      match mkQueryResponse "" 0 0 (some e) with
      | .error err => .error err
      | .ok _ => .error (.runtimeError ("Failed to process query: " ++ e))

/-! ### HTTP layer (`src/app/interface/api.py`, `process_query`) -/

/-- The `/query` endpoint's exception mapping: `ValueError` becomes a 400
with detail `"Invalid request: ..."`, `RuntimeError` becomes a 500 with
detail `"Query processing failed: ..."`; a successful use case becomes a
200 carrying the generated SQL.  Returns `(status code, detail)`. -/
def processQuery (env : UseCaseEnv) (question : String) (userId : Option String) :
    Nat × String :=
  match executeUseCase env question userId with
  | .ok r => (200, r.sqlQuery)
  | .error (.valueError m) => (400, "Invalid request: " ++ m)
  | .error (.runtimeError m) => (500, "Query processing failed: " ++ m)

/-- Claim C7: an empty or whitespace-only question is rejected by
`QueryRequest.__post_init__` before the save/generate/execute steps run
(the outcome does not depend on the collaborator oracle at all), as a
`ValueError` — a kind distinct from the `RuntimeError` used for generation
failures — which the HTTP layer maps to status 400. -/
theorem emptyQuestionRejectedWith400 (env : UseCaseEnv) (question : String)
    (userId : Option String) (h : isBlank question = true) :
    processQuery env question userId =
      (400, "Invalid request: Question cannot be empty") := by
  simp [processQuery, executeUseCase, mkQueryRequest, h]

/-- Witness for C7: the whitespace-only question `"   "` with a concrete
oracle observes the 400 rejection. -/
theorem emptyQuestionRejectedWith400_witness :
    processQuery ⟨.ok "SELECT 1", .ok (0, 0), 0⟩ "   " none =
      (400, "Invalid request: Question cannot be empty") :=
  emptyQuestionRejectedWith400 ⟨.ok "SELECT 1", .ok (0, 0), 0⟩ "   " none (by decide)

/-- Claim C4 (code bug evidence): when SQL generation fails for the
non-empty question `"Show me all employees"`, building the error response
`QueryResponse(sql_query="", ...)` raises
`ValueError("SQL query cannot be empty")`, so the failure surfaces through
the 400 validation path instead of the intended 500 runtime path. -/
theorem generationFailureMappedTo400 :
    processQuery ⟨.error "Failed to generate SQL: connection refused", .ok (0, 0), 0⟩
        "Show me all employees" none =
      (400, "Invalid request: SQL query cannot be empty") := by
  decide

/-! ### EnhancedRAGSystem (`src/app/infrastructure/enhanced_rag_system.py`) -/

/-- `SchemaContext` dataclass (sample rows are only interpolated into the
already-rendered `description`, so they are not tracked separately). -/
structure SchemaContext where
  tableName : String
  columns : List String
  description : String
deriving DecidableEq, Repr

/-- The payload fields the retrieval code reads from a Qdrant record, with
`payload.get(key, '')` defaulting already applied. -/
structure RagPayload where
  text : String
  table : String
  ptype : String
deriving DecidableEq, Repr

/-- One Qdrant `search` hit: payload (`none` models a falsy/absent payload)
and similarity score. -/
structure SearchResult where
  payload : Option RagPayload
  score : ℚ
deriving DecidableEq, Repr

/-- One stored Qdrant point as seen by `scroll`. -/
structure ScrollPoint where
  id : Nat
  payload : Option RagPayload
deriving DecidableEq, Repr

/-- State of an `EnhancedRAGSystem` instance plus an oracle for the Qdrant
round trips made during one retrieval: `searchOutcome = none` (resp.
`scrollRaises = true`) models the vector-store call raising. -/
structure RagState where
  isAvailable : Bool
  hasVectorDb : Bool
  schemaContexts : List SchemaContext
  searchOutcome : Option (List SearchResult)
  store : List ScrollPoint
  scrollRaises : Bool
deriving DecidableEq, Repr

/-- The text-match test of `_fallback_context_retrieval`:
`context.table_name.lower() in question_lower or
any(col.lower() in question_lower for col in context.columns)`. -/
def tableMatchesQuestion (questionLower : String) (c : SchemaContext) : Bool :=
  strContains (pyLower c.tableName) questionLower ||
  c.columns.any (fun col => strContains (pyLower col) questionLower)

/-- `EnhancedRAGSystem._fallback_context_retrieval`. -/
def fallbackContextRetrieval (st : RagState) (question : String) : List String :=
  let questionLower := pyLower question
  st.schemaContexts.foldl
    (fun acc c =>
      if tableMatchesQuestion questionLower c then acc ++ [c.description] else acc)
    []

/-- Keep test of the search-hit loop: truthy payload, `score > 0.01`, and a
nonempty `text` field. -/
def searchResultKept (r : SearchResult) : Bool :=
  match r.payload with
  | some p => decide ((1 : ℚ)/100 < r.score) && p.text != ""
  | none => false

/-- Rendering of a kept search hit: `f"{context_type}: {context_text}"`. -/
def renderSearchResult (r : SearchResult) : String :=
  match r.payload with
  | some p => p.ptype ++ ": " ++ p.text
  | none => ""

/-- The search-hit loop of `retrieve_relevant_context`. -/
def keptContexts (results : List SearchResult) : List String :=
  results.foldl
    (fun acc r => if searchResultKept r then acc ++ [renderSearchResult r] else acc)
    []

/-- Keep test of the scroll-all loop: truthy payload of type `table_schema`
with nonempty text. -/
def schemaPointKept (pt : ScrollPoint) : Bool :=
  match pt.payload with
  | some p => p.ptype == "table_schema" && p.text != ""
  | none => false

/-- Rendering of a scroll-all point: `f"table_schema: {context_text}"`. -/
def renderSchemaPoint (pt : ScrollPoint) : String :=
  match pt.payload with
  | some p => "table_schema: " ++ p.text
  | none => ""

/-- The scroll-all fallback loop of `retrieve_relevant_context` (the
`scroll` call is made with `limit=100`). -/
def scrollAllSchema (pts : List ScrollPoint) : List String :=
  pts.foldl
    (fun acc pt => if schemaPointKept pt then acc ++ [renderSchemaPoint pt] else acc)
    []

/-- `EnhancedRAGSystem.retrieve_relevant_context`: vector search when the
system is available, scroll-all when zero hits survive, and the text-match
fallback whenever the system is unavailable or a Qdrant call raises. -/
def retrieveRelevantContext (st : RagState) (question : String) : List String :=
  if !st.isAvailable || !st.hasVectorDb then fallbackContextRetrieval st question
  else
    match st.searchOutcome with
    | none => fallbackContextRetrieval st question
    | some results =>
      let relevantContexts := keptContexts results
      if relevantContexts.isEmpty then
        if st.scrollRaises then fallbackContextRetrieval st question
        else scrollAllSchema (st.store.take 100)
      else relevantContexts

/-- The enhanced-prompt template of `enhance_question` (the f-string with
its leading and trailing newlines). -/
def enhanceTemplate (contexts : List String) (question : String) : String :=
  "\nDatabase Schema Context:\n" ++ String.intercalate "\n" contexts ++
  "\n\nUSER QUESTION: " ++ question ++
  "\n\nPlease generate accurate SQL based on the database schema context above. Use the correct table names, field names, and relationships. Filter appropriately based on the question.\n"

/-- `EnhancedRAGSystem.enhance_question`. -/
def enhanceQuestion (st : RagState) (question : String) : String :=
  if !st.isAvailable then question
  else
    let relevantContexts := retrieveRelevantContext st question
    if relevantContexts.isEmpty then question
    else enhanceTemplate relevantContexts question

/-- A filtered-append left fold is `filter` followed by `map`. -/
theorem foldl_ite_append {α β : Type _} (p : α → Bool) (g : α → β) :
    ∀ (l : List α) (acc : List β),
      l.foldl (fun a x => if p x then a ++ [g x] else a) acc
        = acc ++ (l.filter p).map g := by
  intro l
  induction l with
  | nil => intro acc; simp
  | cons x xs ih =>
    intro acc
    by_cases h : p x
    · simp [List.foldl_cons, h, ih, List.filter_cons]
    · simp [List.foldl_cons, h, ih, List.filter_cons]

/-- Claim C3: retrieval is total, and whenever the vector store is
unavailable (system flag down, no client, or the search call raising) it
returns exactly the stored descriptions of the schema contexts whose
lowercased table name or column name occurs in the lowercased question, in
extraction order — the empty sequence when none matches. -/
theorem retrieveFallbackCharacterization (st : RagState) (q : String)
    (h : st.isAvailable = false ∨ st.hasVectorDb = false ∨ st.searchOutcome = none) :
    retrieveRelevantContext st q
        = (st.schemaContexts.filter (tableMatchesQuestion (pyLower q))).map
            (fun c => c.description)
    ∧ ((∀ c ∈ st.schemaContexts, tableMatchesQuestion (pyLower q) c = false) →
        retrieveRelevantContext st q = []) := by
  have hfb : fallbackContextRetrieval st q
      = (st.schemaContexts.filter (tableMatchesQuestion (pyLower q))).map
          (fun c => c.description) := by
    simpa [fallbackContextRetrieval] using
      foldl_ite_append (tableMatchesQuestion (pyLower q))
        (fun c : SchemaContext => c.description) st.schemaContexts []
  have hmain : retrieveRelevantContext st q
      = (st.schemaContexts.filter (tableMatchesQuestion (pyLower q))).map
          (fun c => c.description) := by
    rcases h with h | h | h <;> simp [retrieveRelevantContext, h, hfb]
  refine ⟨hmain, fun hnone => ?_⟩
  rw [hmain, List.filter_eq_nil_iff.mpr (by simpa using hnone)]
  simp

/-- Witness for C3: with the availability flag down and a stored
`employees` context, the question about employees retrieves exactly that
description, and an unrelated question retrieves nothing. -/
theorem retrieveFallbackCharacterization_witness :
    retrieveRelevantContext
        ⟨false, false, [⟨"employees", ["id", "first_name"], "employees table"⟩], none, [], true⟩
        "show me all employees"
      = ["employees table"] := by
  rw [(retrieveFallbackCharacterization
        ⟨false, false, [⟨"employees", ["id", "first_name"], "employees table"⟩], none, [], true⟩
        "show me all employees" (Or.inl rfl)).1]
  decide

/-- A Qdrant point counts as an indexed table when its payload is a
`table_schema` record. -/
def isSchemaRecord (pt : ScrollPoint) : Bool :=
  match pt.payload with
  | some p => p.ptype == "table_schema"
  | none => false

/-- Number of `table_schema` records currently stored. -/
def indexedTableCount (store : List ScrollPoint) : Nat :=
  (store.filter isSchemaRecord).length

/-- A reachable store with one `table_schema` record whose `text` payload is
empty: the scroll-all fallback drops it. -/
def emptyTextState : RagState :=
  ⟨true, true, [], some [], [⟨1, some ⟨"", "employees", "table_schema"⟩⟩], false⟩

/-- Counterexample to claim C5 as stated: with the store reachable, vector
search yielding zero kept results, and one indexed `table_schema` record
whose `text` is empty, retrieval returns strictly fewer entries than there
are indexed tables. -/
theorem fallbackAllDropsEmptyText :
    (retrieveRelevantContext emptyTextState "show employees").length
      < indexedTableCount emptyTextState.store := by
  decide

/-- Claim C5 (amended): when the store is reachable and vector search
yields zero kept results, retrieval returns the rendering of every stored
`table_schema` record with nonempty text among the first 100 scrolled
points; when at most 100 points are stored and every `table_schema` record
has nonempty text this is one entry per indexed table — never fewer. -/
theorem fallbackAllReturnsAllSchemaRecords (st : RagState) (q : String)
    (rs : List SearchResult)
    (hAvail : st.isAvailable = true) (hDb : st.hasVectorDb = true)
    (hSearch : st.searchOutcome = some rs) (hKept : keptContexts rs = [])
    (hScroll : st.scrollRaises = false)
    (hLen : st.store.length ≤ 100)
    (hText : ∀ pt ∈ st.store, ∀ p, pt.payload = some p →
      p.ptype = "table_schema" → p.text ≠ "") :
    retrieveRelevantContext st q = (st.store.filter isSchemaRecord).map renderSchemaPoint
    ∧ indexedTableCount st.store ≤ (retrieveRelevantContext st q).length := by
  have htake : st.store.take 100 = st.store := List.take_of_length_le hLen
  have hfilter : st.store.filter schemaPointKept = st.store.filter isSchemaRecord := by
    apply List.filter_congr
    intro pt hpt
    cases hp : pt.payload with
    | none => simp [schemaPointKept, isSchemaRecord, hp]
    | some p =>
      simp only [schemaPointKept, isSchemaRecord, hp]
      by_cases hty : p.ptype = "table_schema"
      · have := hText pt hpt p hp hty
        simp [hty, this]
      · simp [hty]
  have hmain : retrieveRelevantContext st q
      = (st.store.filter isSchemaRecord).map renderSchemaPoint := by
    rw [retrieveRelevantContext]
    simp only [hAvail, hDb, hSearch, hKept, hScroll]
    simp only [Bool.not_true, Bool.or_self, Bool.false_eq_true, if_false]
    rw [htake]
    rw [scrollAllSchema, foldl_ite_append schemaPointKept renderSchemaPoint, hfilter]
    simp
  refine ⟨hmain, ?_⟩
  rw [hmain, indexedTableCount, List.length_map]

/-- Witness for C5 (amended): one stored `table_schema` record with
nonempty text is returned whole by the zero-hit fallback. -/
theorem fallbackAllReturnsAllSchemaRecords_witness :
    retrieveRelevantContext
          ⟨true, true, [], some [], [⟨1, some ⟨"Table: employees", "employees", "table_schema"⟩⟩], false⟩
          "q"
        = ["table_schema: Table: employees"]
    ∧ 1 ≤ (retrieveRelevantContext
          ⟨true, true, [], some [], [⟨1, some ⟨"Table: employees", "employees", "table_schema"⟩⟩], false⟩
          "q").length := by
  have h := fallbackAllReturnsAllSchemaRecords
    ⟨true, true, [], some [], [⟨1, some ⟨"Table: employees", "employees", "table_schema"⟩⟩], false⟩
    "q" [] rfl rfl rfl rfl rfl (by decide) (by decide)
  exact ⟨by rw [h.1]; decide, h.2⟩

/-- A state in which the system flag is down while a matching schema
context is stored: fallback retrieval would be nonempty, yet
`enhance_question` short-circuits. -/
def ragDownState : RagState :=
  ⟨false, false, [⟨"employees", ["id", "first_name"], "employees table"⟩], none, [], true⟩

/-- Counterexample to claim C8 as stated: in `ragDownState` context
retrieval yields a context, yet enhancement returns the question unchanged
rather than the template. -/
theorem enhanceSkipsTemplateWhenUnavailable :
    retrieveRelevantContext ragDownState "show me all employees" ≠ []
    ∧ enhanceQuestion ragDownState "show me all employees"
        ≠ enhanceTemplate (retrieveRelevantContext ragDownState "show me all employees")
            "show me all employees" := by
  decide

/-- Claim C8 (amended): whenever the system reports itself available,
enhancement returns the question unchanged if retrieval yields no
contexts and otherwise the fixed template (schema-context label,
newline-joined contexts, the verbatim question, and the instruction
suffix); when the system is unavailable it returns the question unchanged
without consulting retrieval. -/
theorem enhanceMatchesRetrieval (st : RagState) (q : String) :
    (st.isAvailable = true →
      enhanceQuestion st q =
        if (retrieveRelevantContext st q).isEmpty then q
        else enhanceTemplate (retrieveRelevantContext st q) q)
    ∧ (st.isAvailable = false → enhanceQuestion st q = q) := by
  constructor <;> intro h <;> simp [enhanceQuestion, h]

/-- Witness for C8 (amended): both branches observed on concrete states. -/
theorem enhanceMatchesRetrieval_witness :
    enhanceQuestion ⟨true, true, [], some [], [], false⟩ "hello" =
      (if (retrieveRelevantContext ⟨true, true, [], some [], [], false⟩ "hello").isEmpty
       then "hello"
       else enhanceTemplate
         (retrieveRelevantContext ⟨true, true, [], some [], [], false⟩ "hello") "hello")
    ∧ enhanceQuestion ragDownState "hello" = "hello" :=
  ⟨(enhanceMatchesRetrieval ⟨true, true, [], some [], [], false⟩ "hello").1 rfl,
   (enhanceMatchesRetrieval ragDownState "hello").2 rfl⟩

/-! ### `_create_simple_vector` (`src/app/infrastructure/enhanced_rag_system.py`)

Real-valued arithmetic is modelled over `ℚ`; the MD5 hex digest of
`hashlib.md5(text.encode()).hexdigest()` is an external primitive, passed
in as a function parameter `md5hex`, so every theorem below holds for the
real digest function. -/

/-- The keyword→weight dictionary, in Python dict insertion order. -/
def keywordWeights : List (String × ℚ) :=
  [("user", 1/10), ("users", 1/10), ("order", 2/10), ("orders", 2/10), ("count", 3/10),
   ("sales", 4/10), ("employee", 5/10), ("employees", 5/10), ("customer", 6/10),
   ("table", 7/10), ("column", 8/10), ("schema", 9/10)]

/-- Value of one hexadecimal digit (Python's `int(-, 16)` on valid digests
only ever sees valid digits). -/
def hexDigitVal (c : Char) : Nat :=
  if 48 ≤ c.toNat ∧ c.toNat ≤ 57 then c.toNat - 48
  else if 97 ≤ c.toNat ∧ c.toNat ≤ 102 then c.toNat - 97 + 10
  else if 65 ≤ c.toNat ∧ c.toNat ≤ 70 then c.toNat - 65 + 10
  else 0

/-- `int(s, 16)` on a slice of hex digits. -/
def hexStrVal (cs : List Char) : Nat :=
  cs.foldl (fun a c => 16 * a + hexDigitVal c) 0

/-- First pass: `vector[i % 384] = value` for each keyword contained in the
lowercased text. -/
def keywordPass (textLower : String) (v : List ℚ) : List ℚ :=
  keywordWeights.enum.foldl
    (fun w kw => if strContains kw.2.1 textLower then w.set (kw.1 % 384) kw.2.2 else w)
    v

/-- Second pass: `for i in range(0, min(384, len(text_hash)), 2): if i + 1 < 384:
vector[i] = int(text_hash[i:i+2], 16) / 255.0`. -/
def hashPass (textHash : List Char) (v : List ℚ) : List ℚ :=
  (List.range 192).foldl
    (fun w j =>
      if 2 * j < min 384 textHash.length ∧ 2 * j + 1 < 384 then
        w.set (2 * j) ((hexStrVal ((textHash.drop (2 * j)).take 2) : ℚ) / 255)
      else w)
    v

/-- Third pass: `vector[i] = (vector[i] + ord(char) / 128.0) / 2` for each
indexed character of the lowercased text with index below 384. -/
def charPass (chars : List Char) (v : List ℚ) : List ℚ :=
  chars.enum.foldl
    (fun w ic =>
      if ic.1 < 384 then w.set ic.1 ((w.getD ic.1 0 + (ic.2.toNat : ℚ) / 128) / 2) else w)
    v

/-- `EnhancedRAGSystem._create_simple_vector`: a zero vector of length 384
overlaid by the keyword, hash and character passes. -/
def createSimpleVector (md5hex : String → String) (text : String) : List ℚ :=
  charPass (pyLower text).toList
    (hashPass (md5hex text).toList
      (keywordPass (pyLower text) (List.replicate 384 (0 : ℚ))))

/-- A left fold preserves any invariant preserved by every step on the
traversed elements. -/
theorem foldl_preserves {α β : Type _} (P : β → Prop) :
    ∀ (l : List α) (b : β) (f : β → α → β),
      P b → (∀ w a, a ∈ l → P w → P (f w a)) → P (l.foldl f b) := by
  intro l
  induction l with
  | nil => intro b f hb _; exact hb
  | cons a as ih =>
    intro b f hb hstep
    exact ih (f b a) f (hstep b a (List.mem_cons_self a as) hb)
      (fun w x hx hw => hstep w x (List.mem_cons_of_mem a hx) hw)

/-- `List.set` keeps all elements in the unit interval when the written
value is in it. -/
theorem mem_set_unit {v : List ℚ} {x : ℚ}
    (hv : ∀ y ∈ v, 0 ≤ y ∧ y ≤ 1) (hx : 0 ≤ x ∧ x ≤ 1) (i : Nat) :
    ∀ y ∈ v.set i x, 0 ≤ y ∧ y ≤ 1 := by
  intro y hy
  rcases List.mem_or_eq_of_mem_set hy with h | h
  · exact hv y h
  · exact h ▸ hx

/-- `getD` with default `0` stays in the unit interval over a unit-interval
list. -/
theorem getD_unit {v : List ℚ} (hv : ∀ y ∈ v, 0 ≤ y ∧ y ≤ 1) (i : Nat) :
    0 ≤ v.getD i 0 ∧ v.getD i 0 ≤ 1 := by
  rw [List.getD_eq_getElem?_getD]
  by_cases h : i < v.length
  · rw [List.getElem?_eq_getElem h]
    exact hv _ (List.getElem_mem h)
  · rw [List.getElem?_eq_none (Nat.le_of_not_lt h)]
    exact ⟨le_refl 0, by norm_num⟩

/-- Membership transport out of `List.enum`. -/
theorem enum_snd_mem {α : Type _} {x : Nat × α} {l : List α} (h : x ∈ l.enum) :
    x.2 ∈ l := by
  have hx := List.mem_enum_iff_getElem?.mp h
  exact List.getElem?_mem hx

/-- Each hex digit value is at most 15. -/
theorem hexDigitVal_le (c : Char) : hexDigitVal c ≤ 15 := by
  unfold hexDigitVal
  split_ifs <;> omega

/-- A slice of at most two hex digits parses to at most 255. -/
theorem hexStrVal_le_255 (cs : List Char) (h : cs.length ≤ 2) : hexStrVal cs ≤ 255 := by
  rcases cs with _ | ⟨a, _ | ⟨b, _ | ⟨c, t⟩⟩⟩
  · simp [hexStrVal]
  · have := hexDigitVal_le a
    simp only [hexStrVal, List.foldl]
    omega
  · have ha := hexDigitVal_le a
    have hb := hexDigitVal_le b
    simp only [hexStrVal, List.foldl]
    omega
  · simp at h

/-- The keyword pass keeps every component in the unit interval. -/
theorem keywordPass_unit (textLower : String) (v : List ℚ)
    (hv : ∀ y ∈ v, 0 ≤ y ∧ y ≤ 1) :
    ∀ y ∈ keywordPass textLower v, 0 ≤ y ∧ y ≤ 1 := by
  refine foldl_preserves (fun w => ∀ y ∈ w, 0 ≤ y ∧ y ≤ 1) _ _ _ hv ?_
  intro w kw hkw hw
  by_cases hc : strContains kw.2.1 textLower
  · rw [if_pos hc]
    have hval : ∀ p ∈ keywordWeights.enum, 0 ≤ p.2.2 ∧ p.2.2 ≤ 1 := by
      intro p hp
      obtain ⟨i, q⟩ := p
      have h2 : q ∈ keywordWeights := enum_snd_mem hp
      fin_cases h2 <;> norm_num
    exact mem_set_unit hw (hval kw hkw) _
  · rw [if_neg hc]
    exact hw

/-- The hash pass keeps every component in the unit interval. -/
theorem hashPass_unit (textHash : List Char) (v : List ℚ)
    (hv : ∀ y ∈ v, 0 ≤ y ∧ y ≤ 1) :
    ∀ y ∈ hashPass textHash v, 0 ≤ y ∧ y ≤ 1 := by
  refine foldl_preserves (fun w => ∀ y ∈ w, 0 ≤ y ∧ y ≤ 1) _ _ _ hv ?_
  intro w j hj hw
  by_cases hc : 2 * j < min 384 textHash.length ∧ 2 * j + 1 < 384
  · rw [if_pos hc]
    refine mem_set_unit hw ⟨by positivity, ?_⟩ _
    have hlen : ((textHash.drop (2 * j)).take 2).length ≤ 2 :=
      List.length_take_le 2 (textHash.drop (2 * j))
    have h255 := hexStrVal_le_255 _ hlen
    rw [div_le_one (by norm_num)]
    exact_mod_cast h255
  · rw [if_neg hc]
    exact hw

/-- The character pass keeps every component in the unit interval when all
characters are ASCII. -/
theorem charPass_unit (chars : List Char) (v : List ℚ)
    (hchars : ∀ c ∈ chars, c.toNat ≤ 127)
    (hv : ∀ y ∈ v, 0 ≤ y ∧ y ≤ 1) :
    ∀ y ∈ charPass chars v, 0 ≤ y ∧ y ≤ 1 := by
  refine foldl_preserves (fun w => ∀ y ∈ w, 0 ≤ y ∧ y ≤ 1) _ _ _ hv ?_
  intro w ic hic hw
  by_cases hc : ic.1 < 384
  · rw [if_pos hc]
    have hcur := getD_unit hw ic.1
    have hord : (ic.2.toNat : ℚ) ≤ 127 := by
      have := hchars ic.2 (enum_snd_mem hic)
      exact_mod_cast this
    have hnn : (0 : ℚ) ≤ (w.getD ic.1 0 + (ic.2.toNat : ℚ) / 128) / 2 :=
      div_nonneg (add_nonneg hcur.1 (div_nonneg (by positivity) (by norm_num))) (by norm_num)
    refine mem_set_unit hw ⟨hnn, ?_⟩ _
    have h128 : (ic.2.toNat : ℚ) / 128 ≤ 1 := by
      rw [div_le_one (by norm_num)]
      linarith
    linarith [hcur.2]
  · rw [if_neg hc]
    exact hw

/-- `Char.ofNat` round-trips on the lowercase-letter range. -/
theorem char_ofNat_toNat_eq (m : Nat) (h1 : 97 ≤ m) (h2 : m ≤ 122) :
    (Char.ofNat m).toNat = m := by
  interval_cases m <;> decide

/-- Basic-latin lowercasing keeps ASCII characters ASCII. -/
theorem toLower_ascii (c : Char) (h : c.toNat ≤ 127) : (Char.toLower c).toNat ≤ 127 := by
  unfold Char.toLower
  by_cases hc : Char.toNat c ≥ 65 ∧ Char.toNat c ≤ 90
  · rw [if_pos hc, char_ofNat_toNat_eq _ (by omega) (by omega)]
    omega
  · rw [if_neg hc]
    exact h

/-- `pyLower` acts on the character list by `Char.toLower`. -/
theorem pyLower_toList (s : String) : (pyLower s).toList = s.toList.map Char.toLower := rfl

/-- The keyword pass preserves the vector length. -/
theorem keywordPass_length (textLower : String) (v : List ℚ) :
    (keywordPass textLower v).length = v.length := by
  refine foldl_preserves (fun (w : List ℚ) => w.length = v.length) _ _ _ rfl ?_
  intro w kw _ hwl
  by_cases hc : strContains kw.2.1 textLower
  · rw [if_pos hc, List.length_set]
    exact hwl
  · rw [if_neg hc]
    exact hwl

/-- The hash pass preserves the vector length. -/
theorem hashPass_length (textHash : List Char) (v : List ℚ) :
    (hashPass textHash v).length = v.length := by
  refine foldl_preserves (fun (w : List ℚ) => w.length = v.length) _ _ _ rfl ?_
  intro w j _ hwl
  by_cases hc : 2 * j < min 384 textHash.length ∧ 2 * j + 1 < 384
  · rw [if_pos hc, List.length_set]
    exact hwl
  · rw [if_neg hc]
    exact hwl

/-- The character pass preserves the vector length. -/
theorem charPass_length (chars : List Char) (v : List ℚ) :
    (charPass chars v).length = v.length := by
  refine foldl_preserves (fun (w : List ℚ) => w.length = v.length) _ _ _ rfl ?_
  intro w ic _ hwl
  by_cases hc : ic.1 < 384
  · rw [if_pos hc, List.length_set]
    exact hwl
  · rw [if_neg hc]
    exact hwl

/-- Claim C9: for every digest function and every input text the
vectorization heuristic returns exactly 384 components, and equal texts
yield equal vectors (the digest is a function, so the heuristic is
deterministic). -/
theorem vectorDimensionAndDeterminism (md5hex : String → String) (t1 t2 : String) :
    (createSimpleVector md5hex t1).length = 384
    ∧ (t1 = t2 → createSimpleVector md5hex t1 = createSimpleVector md5hex t2) := by
  constructor
  · rw [createSimpleVector, charPass_length, hashPass_length, keywordPass_length]
    exact List.length_replicate 384 0
  · intro h
    rw [h]

/-- A stand-in digest function used only to instantiate witnesses (the
theorems hold for every digest function, in particular the real MD5). -/
def md5hexSample : String → String := fun _ => "5d41402abc4b2a76b9719d911017c592"

/-- Witness for C9 at a concrete digest function and text. -/
theorem vectorDimensionAndDeterminism_witness :
    (createSimpleVector md5hexSample "show employees").length = 384
    ∧ createSimpleVector md5hexSample "show employees"
        = createSimpleVector md5hexSample "show employees" :=
  ⟨(vectorDimensionAndDeterminism md5hexSample "show employees" "show employees").1,
   (vectorDimensionAndDeterminism md5hexSample "show employees" "show employees").2 rfl⟩

/-- Claim C10: for ASCII input text every component of the produced vector
lies in the closed interval `[0, 1]` (keyword weights are at most `9/10`,
hash-byte pairs are normalized by 255, and the per-character blend
averages the current component with a value at most `127/128`). -/
theorem vectorComponentsInUnitInterval (md5hex : String → String) (text : String)
    (hAscii : ∀ c ∈ text.toList, c.toNat ≤ 127) (i : Nat) :
    0 ≤ (createSimpleVector md5hex text).getD i 0
    ∧ (createSimpleVector md5hex text).getD i 0 ≤ 1 := by
  have hlow : ∀ c ∈ (pyLower text).toList, c.toNat ≤ 127 := by
    intro c hc
    rw [pyLower_toList] at hc
    obtain ⟨a, ha, rfl⟩ := List.mem_map.mp hc
    exact toLower_ascii a (hAscii a ha)
  have h0 : ∀ y ∈ List.replicate 384 (0 : ℚ), 0 ≤ y ∧ y ≤ 1 := by
    intro y hy
    rw [List.eq_of_mem_replicate hy]
    norm_num
  exact getD_unit (charPass_unit _ _ hlow (hashPass_unit _ _ (keywordPass_unit _ _ h0))) i

/-- Witness for C10 at a concrete digest function, text and component. -/
theorem vectorComponentsInUnitInterval_witness :
    0 ≤ (createSimpleVector md5hexSample "show employees").getD 0 0
    ∧ (createSimpleVector md5hexSample "show employees").getD 0 0 ≤ 1 :=
  vectorComponentsInUnitInterval md5hexSample "show employees" (by decide) 0

/-! ### RealSchemaExtractor indexing (`src/real_schema_extractor.py`)

Only the identity-relevant payload fields (`id`, `type`, `table`) are
tracked; the rendered text/vector payloads do not affect which record a
table occupies.  Python's salted per-process `hash` builtin is a parameter
`pyHash`, fixed for one process lifetime. -/

/-- A stored point of the `database_schema` collection as the extractor
sees it. -/
structure SchemaPoint where
  id : Nat
  ptype : String
  table : String
deriving DecidableEq, Repr

/-- `RealSchemaExtractor._get_table_point_id`: a fixed name→id map for the
four known tables, `hash(table_name) % 1000` for all others. -/
def getTablePointId (pyHash : String → Nat) (tableName : String) : Nat :=
  if tableName = "users" then 1
  else if tableName = "employees" then 2
  else if tableName = "sales" then 3
  else if tableName = "orders" then 4
  else pyHash tableName % 1000

/-- `RealSchemaExtractor._clear_old_schema_data`: scroll (limit 1000),
collect the ids of all `table_schema` points, delete those ids. -/
def clearOldSchemaData (store : List SchemaPoint) : List SchemaPoint :=
  let toDelete :=
    ((store.take 1000).filter (fun p => p.ptype == "table_schema")).map (fun p => p.id)
  store.filter (fun p => decide (p.id ∉ toDelete))

/-- The point built for one table by `_store_real_schema_in_qdrant`
(payload `type = "table_schema"`, `table = table_name`, id from the stable
map). -/
def mkSchemaPoint (pyHash : String → Nat) (tableName : String) : SchemaPoint :=
  ⟨getTablePointId pyHash tableName, "table_schema", tableName⟩

/-- Qdrant upsert of one point: replace any point with the same id. -/
def upsertOne (s : List SchemaPoint) (p : SchemaPoint) : List SchemaPoint :=
  (s.filter (fun q => decide (q.id ≠ p.id))) ++ [p]

/-- Qdrant batch upsert (`qdrant_client.upsert(points=...)`). -/
def upsertPoints (store : List SchemaPoint) (pts : List SchemaPoint) : List SchemaPoint :=
  pts.foldl upsertOne store

/-- `extract_and_store_real_schema` steps 2–3: clear old `table_schema`
records, then upsert one point per extracted table (`real_schema` is a
dict keyed by table name, so `names` lists distinct table names). -/
def indexSchema (pyHash : String → Nat) (store : List SchemaPoint) (names : List String) :
    List SchemaPoint :=
  upsertPoints (clearOldSchemaData store) (names.map (mkSchemaPoint pyHash))

/-- The `table_schema` records of a store. -/
def schemaPart (s : List SchemaPoint) : List SchemaPoint :=
  s.filter (fun p => p.ptype == "table_schema")

/-- Clearing removes every `table_schema` record when the store fits in the
scroll limit. -/
theorem schemaPart_clear (store : List SchemaPoint) (h : store.length ≤ 1000) :
    schemaPart (clearOldSchemaData store) = [] := by
  rw [schemaPart, List.filter_eq_nil_iff]
  intro p hp hty
  rw [clearOldSchemaData, List.take_of_length_le h] at hp
  have hmem := List.mem_filter.mp hp
  have hnotin := of_decide_eq_true hmem.2
  exact hnotin (List.mem_map.mpr ⟨p, List.mem_filter.mpr ⟨hmem.1, hty⟩, rfl⟩)

/-- Upserting a batch grows the store by at most the batch size. -/
theorem upsertPoints_length_le (pts : List SchemaPoint) :
    ∀ s : List SchemaPoint, (upsertPoints s pts).length ≤ s.length + pts.length := by
  induction pts with
  | nil => intro s; simp [upsertPoints]
  | cons p ps ih =>
    intro s
    have hstep : (upsertOne s p).length ≤ s.length + 1 := by
      rw [upsertOne, List.length_append]
      have := List.length_filter_le (fun q => decide (q.id ≠ p.id)) s
      simpa using Nat.add_le_add_right this 1
    calc (upsertPoints s (p :: ps)).length
        = (upsertPoints (upsertOne s p) ps).length := rfl
      _ ≤ (upsertOne s p).length + ps.length := ih _
      _ ≤ (s.length + 1) + ps.length := Nat.add_le_add_right hstep _
      _ = s.length + (p :: ps).length := by simp [Nat.add_assoc, Nat.add_comm 1]

/-- `schemaPart` commutes with upserting a `table_schema` point. -/
theorem schemaPart_upsertOne (s : List SchemaPoint) (p : SchemaPoint)
    (hp : p.ptype = "table_schema") :
    schemaPart (upsertOne s p) = upsertOne (schemaPart s) p := by
  rw [schemaPart, upsertOne, List.filter_append, upsertOne, schemaPart,
    List.filter_filter, List.filter_filter]
  have hcomm :
      s.filter (fun a => (a.ptype == "table_schema") && decide (a.id ≠ p.id))
        = s.filter (fun a => decide (a.id ≠ p.id) && (a.ptype == "table_schema")) := by
    apply List.filter_congr
    intro a _
    exact Bool.and_comm _ _
  rw [hcomm]
  congr 1
  simp [hp]

/-- `schemaPart` commutes with batch upsert of `table_schema` points. -/
theorem schemaPart_upsertPoints (pts : List SchemaPoint)
    (hpts : ∀ p ∈ pts, p.ptype = "table_schema") :
    ∀ s : List SchemaPoint,
      schemaPart (upsertPoints s pts) = upsertPoints (schemaPart s) pts := by
  induction pts with
  | nil => intro s; rfl
  | cons p ps ih =>
    intro s
    have hp : p.ptype = "table_schema" := hpts p (List.mem_cons_self p ps)
    have hps : ∀ q ∈ ps, q.ptype = "table_schema" :=
      fun q hq => hpts q (List.mem_cons_of_mem p hq)
    calc schemaPart (upsertPoints (upsertOne s p) ps)
        = upsertPoints (schemaPart (upsertOne s p)) ps := ih hps _
      _ = upsertPoints (upsertOne (schemaPart s) p) ps := by
          rw [schemaPart_upsertOne s p hp]

/-- Every element of an upserted store comes from the old store or the
batch. -/
theorem mem_upsertPoints (pts : List SchemaPoint) :
    ∀ (s : List SchemaPoint) (x : SchemaPoint),
      x ∈ upsertPoints s pts → x ∈ s ∨ x ∈ pts := by
  induction pts with
  | nil => intro s x hx; exact Or.inl hx
  | cons p ps ih =>
    intro s x hx
    rcases ih (upsertOne s p) x hx with h | h
    · rw [upsertOne] at h
      rcases List.mem_append.mp h with h | h
      · exact Or.inl (List.mem_filter.mp h).1
      · have hx : x = p := List.mem_singleton.mp h
        exact Or.inr (by rw [hx]; exact List.mem_cons_self p ps)
    · exact Or.inr (List.mem_cons_of_mem p h)

/-- Upserting preserves distinctness of the stored ids. -/
theorem upsertPoints_nodup_ids (pts : List SchemaPoint) :
    ∀ s : List SchemaPoint,
      (s.map (fun p => p.id)).Nodup → ((upsertPoints s pts).map (fun p => p.id)).Nodup := by
  induction pts with
  | nil => intro s hs; exact hs
  | cons p ps ih =>
    intro s hs
    apply ih
    rw [upsertOne, List.map_append]
    rw [List.nodup_append]
    refine ⟨?_, by simp, ?_⟩
    · exact hs.sublist
        (List.Sublist.map (fun p => p.id) (List.filter_sublist s))
    · intro a ha hb
      obtain ⟨q, hq, rfl⟩ := List.mem_map.mp ha
      have hne := of_decide_eq_true (List.mem_filter.mp hq).2
      simp only [List.map_cons, List.map_nil, List.mem_singleton] at hb
      exact hne hb

/-- A list with pairwise-distinct ids whose elements are all one fixed
point has at most one element. -/
theorem length_le_one_of_const {l : List SchemaPoint} {a : SchemaPoint}
    (hall : ∀ x ∈ l, x = a) (hnd : (l.map (fun p => p.id)).Nodup) : l.length ≤ 1 := by
  match l with
  | [] => simp
  | [x] => simp
  | x :: y :: t =>
    exfalso
    have hx : x = a := hall x (List.mem_cons_self _ _)
    have hy : y = a := hall y (List.mem_cons_of_mem _ (List.mem_cons_self _ _))
    rw [List.map_cons, List.nodup_cons] at hnd
    exact hnd.1 (by rw [hx, hy]; exact List.mem_cons_self _ _)

/-- The `table_schema` part produced by one `index` run, as a function of
the table names only. -/
def canonicalSchemaPoints (pyHash : String → Nat) (names : List String) : List SchemaPoint :=
  upsertPoints [] (names.map (mkSchemaPoint pyHash))

/-- After `index()` the `table_schema` part of the store is canonical in the
extracted names, independent of the previous store contents. -/
theorem schemaPart_indexSchema (pyHash : String → Nat) (store : List SchemaPoint)
    (names : List String) (h : store.length ≤ 1000) :
    schemaPart (indexSchema pyHash store names) = canonicalSchemaPoints pyHash names := by
  rw [indexSchema, canonicalSchemaPoints,
    schemaPart_upsertPoints _ (by intro p hp; obtain ⟨n, _, rfl⟩ := List.mem_map.mp hp; rfl),
    schemaPart_clear store h]

/-- Claim C6: with the store within the scroll limit and distinct table
names, (a) after `index()` there is at most one `table_schema` record per
table name, (b) indexing the same names twice yields the same
`table_schema` records — same count and same ids, and (c) every record's
id is the deterministic stable-map/hash-modulo function of its table
name, so re-indexing replaces rather than duplicates. -/
theorem indexSchemaIdempotentAndUnique (pyHash : String → Nat) (store : List SchemaPoint)
    (names : List String) (hlen : store.length + names.length ≤ 1000)
    (_hnodup : names.Nodup) :
    (∀ n, ((indexSchema pyHash store names).filter
        (fun p => (p.ptype == "table_schema") && (p.table == n))).length ≤ 1)
    ∧ schemaPart (indexSchema pyHash (indexSchema pyHash store names) names)
        = schemaPart (indexSchema pyHash store names)
    ∧ (∀ p ∈ schemaPart (indexSchema pyHash store names),
        p.id = getTablePointId pyHash p.table) := by
  have h1 : store.length ≤ 1000 := by omega
  have hcanon := schemaPart_indexSchema pyHash store names h1
  have hmemCanon : ∀ x ∈ canonicalSchemaPoints pyHash names,
      x ∈ names.map (mkSchemaPoint pyHash) := by
    intro x hx
    rcases mem_upsertPoints _ _ _ hx with h | h
    · exact absurd h (List.not_mem_nil x)
    · exact h
  have hndCanon : ((canonicalSchemaPoints pyHash names).map (fun p => p.id)).Nodup :=
    upsertPoints_nodup_ids _ [] (by simp)
  refine ⟨?_, ?_, ?_⟩
  · intro n
    have hsplit : (indexSchema pyHash store names).filter
        (fun p => (p.ptype == "table_schema") && (p.table == n))
        = (schemaPart (indexSchema pyHash store names)).filter (fun p => p.table == n) := by
      rw [schemaPart, List.filter_filter]
      apply List.filter_congr
      intro a _
      exact Bool.and_comm _ _
    rw [hsplit, hcanon]
    apply length_le_one_of_const (a := mkSchemaPoint pyHash n)
    · intro x hx
      have hxc := List.mem_filter.mp hx
      obtain ⟨m, _, rfl⟩ := List.mem_map.mp (hmemCanon x hxc.1)
      have hm : m = n := by simpa using hxc.2
      rw [hm]
    · exact hndCanon.sublist
        (List.Sublist.map (fun p => p.id)
          (List.filter_sublist (canonicalSchemaPoints pyHash names)))
  · have h2 : (indexSchema pyHash store names).length ≤ 1000 := by
      have ha := upsertPoints_length_le (names.map (mkSchemaPoint pyHash))
        (clearOldSchemaData store)
      have hb : (clearOldSchemaData store).length ≤ store.length := by
        rw [clearOldSchemaData]
        exact List.length_filter_le _ store
      have hc : (names.map (mkSchemaPoint pyHash)).length = names.length :=
        List.length_map _ _
      rw [indexSchema]
      omega
    rw [schemaPart_indexSchema pyHash _ names h2, hcanon]
  · intro p hp
    rw [hcanon] at hp
    obtain ⟨m, _, rfl⟩ := List.mem_map.mp (hmemCanon p hp)
    rfl

/-- Witness for C6 at a concrete hash function, empty store and two table
names. -/
theorem indexSchemaIdempotentAndUnique_witness :
    ((indexSchema (fun s => s.length) [] ["users", "products"]).filter
        (fun p => (p.ptype == "table_schema") && (p.table == "users"))).length ≤ 1 :=
  (indexSchemaIdempotentAndUnique (fun s => s.length) [] ["users", "products"]
    (by decide) (by decide)).1 "users"

/-! ### VannaClientRepository (`src/app/infrastructure/vanna_client.py`)

The external collaborators of `generate_sql` are an oracle: whether the
Vanna client was constructed with its API key (`vannaAvailable`), what
`EnhancedRAGSystem.initialize()` returns (`ragInitResult`; `initialize`
returns `True` exactly when it sets `_is_available = True`), and what the
`ask` call returns (`askResult`, `none` when it raises; the string/tuple
response validation of `_generate_sql_with_vanna_rag` is applied to it).
The mutable `_rag_initialized` flag is the threaded state. -/

/-- Collaborator oracle for one `generate_sql` call. -/
structure VannaEnv where
  vannaAvailable : Bool
  ragInitResult : Bool
  askResult : Option String
deriving DecidableEq, Repr

/-- The mutable per-instance state read and written by `generate_sql`. -/
structure VannaState where
  ragInitialized : Bool
deriving DecidableEq, Repr

/-- `VannaClientRepository._generate_sql_from_patterns`: first matching
keyword rule wins, defaulting to `SELECT * FROM employees`. -/
def generateSqlFromPatterns (question : String) : String :=
  let questionLower := pyLower question
  if strContains "all employees" questionLower then
    "SELECT * FROM employees"
  else if strContains "employees in engineering" questionLower then
    "SELECT * FROM employees WHERE department = \x27Engineering\x27"
  else if strContains "average salary" questionLower then
    "SELECT department, AVG(salary) as average_salary FROM employees GROUP BY department"
  else if strContains "names start with" questionLower && strContains "j" questionLower then
    "SELECT * FROM employees WHERE first_name LIKE \x27J%\x27"
  else if strContains "all tables" questionLower then
    "SELECT name FROM sqlite_master WHERE type=\x27table\x27"
  else
    "SELECT * FROM employees"

/-- `_generate_sql_with_vanna_rag` called with the RAG system already
initialized: the `ask` outcome is validated — a string whose strip is
nonempty succeeds, anything else raises, wrapped by the method's own
`except` clause. -/
def generateSqlWithVannaRag (env : VannaEnv) : Except String String :=
  match env.askResult with
  | some result =>
    if isBlank result then
      .error ("Failed to generate SQL with Vanna AI + RAG: Vanna AI returned invalid SQL result: "
        ++ result)
    else
      .ok (pyStrip result)
  | none => .error "Failed to generate SQL with Vanna AI + RAG: ask raised"

/-- `_generate_sql_with_rag_only`: requires the RAG system initialized and
available, then answers from the pattern rules (the `enhance_question`
call is made only for logging; the pattern matcher never raises). -/
def generateSqlWithRagOnly (ragInitialized ragAvailable : Bool) (question : String) :
    Except String String :=
  if !ragInitialized || !ragAvailable then
    .error "RAG system not available"
  else
    .ok (pyStrip (generateSqlFromPatterns question))

/-- The inner try of `generate_sql` after a successful initialization:
primary Vanna+RAG generation, falling back to RAG-only patterns, with the
outer `except` wrapping a fallback failure as
`RuntimeError(f"Failed to generate SQL: {e}")`. -/
def tryGeneratePaths (env : VannaEnv) (question : String) : Except String String :=
  match generateSqlWithVannaRag env with
  | .ok sql => .ok (pyStrip sql)
  | .error _ =>
    match generateSqlWithRagOnly true env.ragInitResult question with
    | .ok sql => .ok (pyStrip sql)
    | .error e => .error ("Failed to generate SQL: " ++ e)

/-- `VannaClientRepository.generate_sql`.  Faithful to the source's branch
structure: when `_rag_initialized` is already `True` the `else` arm raises
`RuntimeError("RAG system not available")` (wrapped by the outer
`except`); when initialization fails the flag keeps the failure value
`False` and the call raises; only a first call that initializes
successfully reaches the generation paths. -/
def generateSql (env : VannaEnv) (st : VannaState) (question : String) :
    Except String String × VannaState :=
  if !env.vannaAvailable then
    (.error "Vanna AI client not available - please check API key and model configuration", st)
  else if !st.ragInitialized then
    let st' : VannaState := ⟨env.ragInitResult⟩
    if env.ragInitResult then
      (tryGeneratePaths env question, st')
    else
      (.error "Failed to generate SQL: Cannot proceed without RAG system - schema context is required",
        st')
  else
    (.error "Failed to generate SQL: RAG system not available", st)

/-- Counterexample to claim C1 as stated: with the vector store unreachable
(`initialize()` returns `False`) the call raises a `RuntimeError` instead
of returning the pattern-fallback SQL — the pattern fallback is never
reached. -/
theorem generateSqlRaisesWhenRagUnavailable :
    (generateSql ⟨true, false, none⟩ ⟨false⟩ "Show me all employees").1
        = .error "Failed to generate SQL: Cannot proceed without RAG system - schema context is required"
    ∧ (generateSql ⟨true, false, none⟩ ⟨false⟩ "Show me all employees").1
        ≠ .ok "SELECT * FROM employees" := by
  decide

/-- Claim C1 (amended): the pattern fallback does return
`SELECT * FROM employees` for that question, but only when the RAG system
initialized successfully and the external generation service fails; when
the vector store is unreachable, `generate_sql` instead raises. -/
theorem patternFallbackWhenVannaFailsAfterRagInit (env envBad : VannaEnv)
    (h1 : env.vannaAvailable = true) (h2 : env.ragInitResult = true)
    (h3 : env.askResult = none)
    (h4 : envBad.vannaAvailable = true) (h5 : envBad.ragInitResult = false) :
    (generateSql env ⟨false⟩ "Show me all employees").1 = .ok "SELECT * FROM employees"
    ∧ ∃ e, (generateSql envBad ⟨false⟩ "Show me all employees").1 = Except.error e := by
  obtain ⟨a1, a2, a3⟩ := env
  obtain ⟨b1, b2, b3⟩ := envBad
  simp only at h1 h2 h3 h4 h5
  subst h1; subst h2; subst h3; subst h4; subst h5
  exact ⟨by decide, ⟨_, rfl⟩⟩

/-- Witness for C1 (amended) at concrete oracles. -/
theorem patternFallbackWhenVannaFailsAfterRagInit_witness :
    (generateSql ⟨true, true, none⟩ ⟨false⟩ "Show me all employees").1
        = .ok "SELECT * FROM employees"
    ∧ ∃ e, (generateSql ⟨true, false, none⟩ ⟨false⟩ "Show me all employees").1
        = Except.error e :=
  patternFallbackWhenVannaFailsAfterRagInit ⟨true, true, none⟩ ⟨true, false, none⟩
    rfl rfl rfl rfl rfl

/-- Claim C2 (code bug evidence): a first call with successful
initialization succeeds and latches the flag, after which the very next
call on the same instance raises
`RuntimeError("Failed to generate SQL: RAG system not available")` instead
of proceeding to generation; and a failed initialization leaves the flag
`False`, so initialization is re-attempted on the next call rather than
memoized. -/
theorem ensureReadySecondCallRaises :
    ((generateSql ⟨true, true, some "SELECT 1"⟩ ⟨false⟩ "list users").1 = .ok "SELECT 1"
      ∧ (generateSql ⟨true, true, some "SELECT 1"⟩ ⟨false⟩ "list users").2.ragInitialized = true)
    ∧ (generateSql ⟨true, true, some "SELECT 1"⟩
          (generateSql ⟨true, true, some "SELECT 1"⟩ ⟨false⟩ "list users").2 "list users").1
        = .error "Failed to generate SQL: RAG system not available"
    ∧ (generateSql ⟨true, false, none⟩ ⟨false⟩ "list users").2.ragInitialized = false := by
  decide

end N2SQL
